import Mathlib

/-!
Shallow embedding of `households/eligibility.py` (EligibilityScorer,
HouseholdQualificationTool, batch helpers) from the upgis_python repository.

Modelling conventions:
* Python numbers are modelled exactly: integer scores as `Int`, the weighted
  total and money amounts as `ℚ`.
* A Python attribute that the code reads through `getattr(h, name, default)`
  and that may be `None` is modelled as an `Option`; an attribute read with a
  plain default is modelled by a field holding that default when absent.
* Python dicts with a fixed key set are modelled as structures together with
  an explicit association list reproducing the dict's insertion order
  (`scoresList`, `checksList`, `SCORING_WEIGHTS`).
* `list.sort(key=..., reverse=True)` (Timsort, documented stable also with
  `reverse=True`) is modelled with `List.mergeSort` and the descending
  comparator, which keeps the left (earlier) element on ties.
-/

namespace UPG

/-- The village attributes read by the scorer and by the qualification tool.
`none` models a village object lacking the attribute (`hasattr` false). -/
structure Village where
  distance_to_market : Option Int
  is_program_area : Option Bool
deriving Repr, DecidableEq

/-- The household snapshot: every attribute the Python code reads off the
household object.  `Option` fields model attributes that may be absent or
`None`; plain fields hold the `getattr` default when the attribute is absent. -/
structure Household where
  latest_ppi_score : Option Int
  monthly_income : Option ℚ
  assets : List String
  head_gender : String
  head_age : Int
  disabled_members_count : Int
  is_single_parent : Bool
  total_members : Int
  working_members_count : Int
  location : String
  village : Option Village
  has_electricity : Bool
  has_clean_water : Bool
  children_under_5_count : Int
  head_education_level : String
  consent_given : Bool
  id : Nat
  name : String
deriving Repr, DecidableEq

/-- `EligibilityScorer.SCORING_WEIGHTS`, in dict insertion order. -/
def SCORING_WEIGHTS : List (String × ℚ) :=
  [("poverty_index", 0.30), ("income_level", 0.25), ("asset_ownership", 0.15),
   ("social_factors", 0.15), ("geographic", 0.10), ("demographic", 0.05)]

/-- Dict access `SCORING_WEIGHTS[category]`. -/
def weightOf (category : String) : ℚ :=
  (SCORING_WEIGHTS.lookup category).getD 0

/-- `EligibilityScorer.ELIGIBILITY_THRESHOLDS`. -/
def ELIGIBILITY_THRESHOLDS : List (String × ℚ) :=
  [("highly_eligible", 80), ("eligible", 60), ("marginally_eligible", 40),
   ("not_eligible", 0)]

/-- Dict access `ELIGIBILITY_THRESHOLDS[level]`. -/
def thresholdOf (level : String) : ℚ :=
  (ELIGIBILITY_THRESHOLDS.lookup level).getD 0

/-- `_score_poverty_index`.  The guard `if ppi_score:` is Python truthiness:
it is false both for `None` and for the integer `0`, so a household whose
`latest_ppi_score` is `0` falls through to the default 50. -/
def scorePovertyIndex (h : Household) : Int :=
  match h.latest_ppi_score with
  | none => 50
  | some p =>
    if p = 0 then 50
    else if p ≤ 20 then 100
    else if p ≤ 40 then 80
    else if p ≤ 60 then 60
    else if p ≤ 80 then 30
    else 10

/-- `_score_income_level`.  `getattr(h, 'monthly_income', 0) or 0` maps both
an absent attribute and `None` (and `0` itself) to `0`. -/
def scoreIncomeLevel (h : Household) : Int :=
  let monthly_income : ℚ := h.monthly_income.getD 0
  let extreme_poverty_line : ℚ := 2500
  let poverty_line : ℚ := 5000
  if monthly_income ≤ extreme_poverty_line then 100
  else if monthly_income ≤ poverty_line then 80
  else if monthly_income ≤ poverty_line * 1.5 then 60
  else if monthly_income ≤ poverty_line * 2 then 40
  else 20

def basic_assets : List String := ["bicycle", "radio", "mobile_phone"]
def productive_assets : List String := ["livestock", "land", "business_equipment"]
def luxury_assets : List String := ["car", "motorcycle", "television", "refrigerator"]

/-- `_score_asset_ownership`.  `h.assets` holds the asset names whose flag is
truthy; each tier count is the number of its assets present. -/
def scoreAssetOwnership (h : Household) : Int :=
  let basic_count := (basic_assets.filter (fun a => h.assets.contains a)).length
  let productive_count := (productive_assets.filter (fun a => h.assets.contains a)).length
  let luxury_count := (luxury_assets.filter (fun a => h.assets.contains a)).length
  if luxury_count > 2 then 10
  else if luxury_count > 0 ∨ productive_count > 2 then 30
  else if productive_count > 0 ∨ basic_count > 2 then 60
  else if basic_count > 0 then 80
  else 100

/-- `_score_social_factors`: base 50, the `score += ...` steps written as a
sum of guarded bonuses, capped with `min(score, 100)`.  The dependency
quotient `(total_members - working_members) / max(working_members, 1)` is
Python true division, modelled in `ℚ`. -/
def scoreSocialFactors (h : Household) : Int :=
  min
    (50
      + (if h.head_gender = "female" then 15 else 0)
      + (if h.head_age ≥ 65 then 10 else if h.head_age ≥ 55 then 5 else 0)
      + (if h.disabled_members_count > 0 then 15 else 0)
      + (if h.is_single_parent then 10 else 0)
      + (if ((h.total_members - h.working_members_count : Int) : ℚ)
            / ((max h.working_members_count 1 : Int) : ℚ) ≥ 3 then 15
         else if ((h.total_members - h.working_members_count : Int) : ℚ)
            / ((max h.working_members_count 1 : Int) : ℚ) ≥ 2 then 10
         else if ((h.total_members - h.working_members_count : Int) : ℚ)
            / ((max h.working_members_count 1 : Int) : ℚ) ≥ 1 then 5
         else 0))
    100

/-- `'keyword' in location.lower()`: case-insensitive substring test,
carried out on the location's character list. -/
def locationHasKeyword (loc : String) : Bool :=
  ["remote", "rural", "isolated"].any
    (fun kw => decide (kw.toList <:+: loc.toList.map Char.toLower))

/-- `_score_geographic_factors`: base 50 plus guarded bonuses, capped at 100.
The market-distance bonus applies only when the household has a village
object carrying a `distance_to_market` attribute. -/
def scoreGeographicFactors (h : Household) : Int :=
  min
    (50
      + (if locationHasKeyword h.location then 20 else 0)
      + (match h.village with
         | none => 0
         | some v =>
           match v.distance_to_market with
           | none => 0
           | some d => if d > 20 then 15 else if d > 10 then 10 else if d > 5 then 5 else 0)
      + (if h.has_electricity then 0 else 10)
      + (if h.has_clean_water then 0 else 15))
    100

/-- `_score_demographic_factors`: base 50, size/children/education bonuses
(size bonus can be −10), clamped with `min(max(score, 0), 100)`. -/
def scoreDemographicFactors (h : Household) : Int :=
  min
    (max
      (50
        + (if h.total_members ≥ 8 then 20
           else if h.total_members ≥ 6 then 15
           else if h.total_members ≥ 4 then 10
           else if h.total_members ≤ 2 then -10
           else 0)
        + (if h.children_under_5_count ≥ 3 then 15
           else if h.children_under_5_count ≥ 2 then 10
           else if h.children_under_5_count ≥ 1 then 5
           else 0)
        + (if h.head_education_level = "none" ∨ h.head_education_level = "primary_incomplete"
           then 15
           else if h.head_education_level = "primary_complete" then 10
           else if h.head_education_level = "secondary_incomplete" then 5
           else 0))
      0)
    100

/-- The `self.scores` dict's values. -/
structure CategoryScores where
  poverty_index : Int
  income_level : Int
  asset_ownership : Int
  social_factors : Int
  geographic : Int
  demographic : Int
deriving Repr, DecidableEq

/-- `self.scores` as computed in `calculate_comprehensive_score`. -/
def categoryScores (h : Household) : CategoryScores where
  poverty_index := scorePovertyIndex h
  income_level := scoreIncomeLevel h
  asset_ownership := scoreAssetOwnership h
  social_factors := scoreSocialFactors h
  geographic := scoreGeographicFactors h
  demographic := scoreDemographicFactors h

/-- `self.scores.items()`, in dict insertion order. -/
def scoresList (c : CategoryScores) : List (String × Int) :=
  [("poverty_index", c.poverty_index), ("income_level", c.income_level),
   ("asset_ownership", c.asset_ownership), ("social_factors", c.social_factors),
   ("geographic", c.geographic), ("demographic", c.demographic)]

/-- `sum(score * SCORING_WEIGHTS[category] for category, score in scores.items())`. -/
def totalScoreRaw (h : Household) : ℚ :=
  ((scoresList (categoryScores h)).map (fun p => (p.2 : ℚ) * weightOf p.1)).sum

/-- `round(x, 2)`.  On every value this program produces, `x * 100` is an
integer (category scores are integers and all weights are hundredths), so no
rounding tie can occur and the choice of tie-breaking mode is irrelevant. -/
def round2 (q : ℚ) : ℚ := (round (q * 100) : ℤ) / 100

/-- The threshold cascade assigning `self.eligibility_level` from the
(unrounded) total score. -/
def eligibilityLevel (total : ℚ) : String :=
  if total ≥ thresholdOf "highly_eligible" then "highly_eligible"
  else if total ≥ thresholdOf "eligible" then "eligible"
  else if total ≥ thresholdOf "marginally_eligible" then "marginally_eligible"
  else "not_eligible"

/-- `_get_recommendation`: fixed text keyed by eligibility level. -/
def recommendationFor (level : String) : String :=
  if level = "highly_eligible" then
    "Highly recommended for immediate enrollment. This household meets all criteria for ultra-poor graduation program."
  else if level = "eligible" then
    "Recommended for enrollment. This household would benefit significantly from the UPG program."
  else if level = "marginally_eligible" then
    "Consider for enrollment based on program capacity. May need additional assessment of specific vulnerabilities."
  else if level = "not_eligible" then
    "Not recommended for ultra-poor graduation program. Consider referral to other appropriate programs."
  else "Unable to determine recommendation."

/-- The canned hint `_get_improvement_areas` appends for a low category. -/
def improvementHint (category : String) : String :=
  if category = "poverty_index" then "Consider updated PPI assessment"
  else if category = "income_level" then "Income documentation may need verification"
  else if category = "asset_ownership" then "Asset assessment may need review"
  else if category = "social_factors" then "Social vulnerability factors need assessment"
  else if category = "geographic" then "Geographic accessibility factors"
  else "Demographic characteristics assessment"

/-- `_get_improvement_areas`: one hint per category scoring below 60,
in dict iteration order. -/
def improvementAreas (c : CategoryScores) : List String :=
  ((scoresList c).filter (fun p => p.2 < 60)).map (fun p => improvementHint p.1)

/-- The dict returned by `calculate_comprehensive_score`. -/
structure ScoreResult where
  total_score : ℚ
  eligibility_level : String
  category_scores : CategoryScores
  recommendation : String
  improvement_areas : List String
deriving Repr, DecidableEq

/-- Scorer instance state: `household`, `scores` (initially the empty dict,
modelled `none`), `total_score`, `eligibility_level`. -/
structure ScorerState where
  household : Household
  scores : Option CategoryScores
  total_score : ℚ
  eligibility_level : String
deriving Repr, DecidableEq

/-- `EligibilityScorer.__init__`. -/
def initScorer (h : Household) : ScorerState :=
  { household := h, scores := none, total_score := 0,
    eligibility_level := "not_eligible" }

/-- `calculate_comprehensive_score` as a state transformer on the scorer
instance: it recomputes everything from `self.household`, overwrites
`self.scores`, `self.total_score`, `self.eligibility_level`, and returns the
result dict. -/
def calcStep (s : ScorerState) : ScorerState × ScoreResult :=
  let h := s.household
  let scores := categoryScores h
  let total := totalScoreRaw h
  let level := eligibilityLevel total
  ({ household := h, scores := some scores, total_score := total,
     eligibility_level := level },
   { total_score := round2 total
     eligibility_level := level
     category_scores := scores
     recommendation := recommendationFor level
     improvement_areas := improvementAreas scores })

/-- `EligibilityScorer(household).calculate_comprehensive_score()`. -/
def calculate_comprehensive_score (h : Household) : ScoreResult :=
  (calcStep (initScorer h)).2

/-- `is_eligible_for_program`. -/
def is_eligible_for_program (h : Household) (program_type : String) : Bool :=
  let result := calculate_comprehensive_score h
  if program_type = "graduation" then
    ["highly_eligible", "eligible"].contains result.eligibility_level
  else if program_type = "general" then
    result.eligibility_level != "not_eligible"
  else false

/-- The values of the `qualification_checks` dict. -/
structure QualificationChecks where
  geographic_eligibility : Bool
  program_capacity : Bool
  previous_participation : Bool
  consent_and_commitment : Bool
deriving Repr, DecidableEq

/-- `_check_geographic_eligibility`: the village's `is_program_area` when the
household has a village carrying that attribute, else `True`. -/
def check_geographic_eligibility (h : Household) : Bool :=
  match h.village with
  | none => true
  | some v =>
    match v.is_program_area with
    | none => true
    | some b => b

/-- `_check_program_capacity`: stubbed `True` in the source. -/
def check_program_capacity (_h : Household) : Bool := true

/-- `_check_previous_participation`: stubbed `True` in the source. -/
def check_previous_participation (_h : Household) : Bool := true

/-- `_check_consent_commitment`. -/
def check_consent_commitment (h : Household) : Bool := h.consent_given

/-- The `qualification_checks` dict built in `run_qualification_assessment`. -/
def qualificationChecks (h : Household) : QualificationChecks where
  geographic_eligibility := check_geographic_eligibility h
  program_capacity := check_program_capacity h
  previous_participation := check_previous_participation h
  consent_and_commitment := check_consent_commitment h

/-- `qualification_checks.items()`, in dict insertion order. -/
def checksList (q : QualificationChecks) : List (String × Bool) :=
  [("geographic_eligibility", q.geographic_eligibility),
   ("program_capacity", q.program_capacity),
   ("previous_participation", q.previous_participation),
   ("consent_and_commitment", q.consent_and_commitment)]

/-- The `final_qualification` dict.  `blocking_factors` is `none` in the
branches whose dict literal omits the key. -/
structure FinalQualification where
  qualified : Bool
  qualification_level : String
  priority_score : ℚ
  status : String
  blocking_factors : Option (List String)
deriving Repr, DecidableEq

/-- `_make_final_decision`. -/
def make_final_decision (er : ScoreResult) (qc : QualificationChecks) :
    FinalQualification :=
  let is_eligible := ["highly_eligible", "eligible"].contains er.eligibility_level
  let all_checks_pass := (checksList qc).all (fun p => p.2)
  if is_eligible && all_checks_pass then
    { qualified := true, qualification_level := er.eligibility_level,
      priority_score := er.total_score, status := "qualified",
      blocking_factors := none }
  else if is_eligible then
    { qualified := false, qualification_level := "conditional",
      priority_score := er.total_score, status := "needs_review",
      blocking_factors :=
        some (((checksList qc).filter (fun p => !p.2)).map Prod.fst) }
  else
    { qualified := false, qualification_level := "not_qualified",
      priority_score := er.total_score, status := "not_qualified",
      blocking_factors := none }

/-- `_get_next_steps`. -/
def get_next_steps (fq : FinalQualification) : List String :=
  if fq.qualified then
    ["Proceed with program enrollment", "Complete household registration",
     "Assign to mentor", "Schedule initial training sessions"]
  else if fq.status = "needs_review" then
    ["Address blocking factors", "Complete additional assessments",
     "Obtain required documentation", "Resubmit for qualification review"]
  else
    ["Refer to alternative programs", "Provide resource information",
     "Consider re-assessment in future"]

/-- The dict returned by `run_qualification_assessment`.  The
`assessment_date` entry (`timezone.now()`, a wall-clock read) is the one
field not modelled: it is I/O, and no property here mentions it. -/
structure QualificationResult where
  eligibility_assessment : ScoreResult
  qualification_checks : QualificationChecks
  final_qualification : FinalQualification
  next_steps : List String
deriving Repr, DecidableEq

/-- `HouseholdQualificationTool(household).run_qualification_assessment()`. -/
def run_qualification_assessment (h : Household) : QualificationResult :=
  let eligibility_result := calculate_comprehensive_score h
  let qc := qualificationChecks h
  let final := make_final_decision eligibility_result qc
  { eligibility_assessment := eligibility_result
    qualification_checks := qc
    final_qualification := final
    next_steps := get_next_steps final }

/-- `quick_eligibility_check`. -/
def quick_eligibility_check (h : Household) : Bool :=
  ["highly_eligible", "eligible"].contains
    (calculate_comprehensive_score h).eligibility_level

/-- One entry of the `batch_eligibility_assessment` result list. -/
structure BatchEntry where
  household_id : Nat
  household_name : String
  total_score : ℚ
  eligibility_level : String
  eligible : Bool
deriving Repr, DecidableEq

/-- The per-household dict appended inside `batch_eligibility_assessment`. -/
def batchEntry (h : Household) : BatchEntry :=
  let result := calculate_comprehensive_score h
  { household_id := h.id
    household_name := h.name
    total_score := result.total_score
    eligibility_level := result.eligibility_level
    eligible := ["highly_eligible", "eligible"].contains result.eligibility_level }

/-- The comparator realising `results.sort(key=lambda x: x['total_score'],
reverse=True)`: entry `a` may stay before `b` iff `a`'s score is at least
`b`'s, so equal scores keep their original (left-first) order, matching
Python's stable sort. -/
def batchLE (a b : BatchEntry) : Bool := decide (b.total_score ≤ a.total_score)

/-- `batch_eligibility_assessment`: map each household to its entry, then
stable-sort by `total_score` descending. -/
def batch_eligibility_assessment (hs : List Household) : List BatchEntry :=
  (hs.map batchEntry).mergeSort batchLE

/-! Concrete households used by counterexamples and witnesses. -/

/-- A neutral baseline household: every optional attribute absent, every
plain attribute at its `getattr` default. -/
def hhBase : Household :=
  { latest_ppi_score := none, monthly_income := none, assets := [],
    head_gender := "", head_age := 0, disabled_members_count := 0,
    is_single_parent := false, total_members := 1, working_members_count := 1,
    location := "", village := none, has_electricity := false,
    has_clean_water := false, children_under_5_count := 0,
    head_education_level := "none", consent_given := false,
    id := 0, name := "base" }

/-- A household whose recorded PPI score is the integer 0. -/
def hhPpi0 : Household := { hhBase with latest_ppi_score := some 0, id := 1, name := "ppi0" }

/-- A household whose recorded PPI score is 15. -/
def hhPpi15 : Household := { hhBase with latest_ppi_score := some 15, id := 2, name := "ppi15" }

/-- The concrete scenario of the spec: PPI 15, income 2000, no assets,
female head aged 60, one disabled member, 9 members with 3 working
(dependency quotient 2), remote rural location, market 25 km away, no
electricity, no clean water, 3 children under five, no education. -/
def hhScenario : Household :=
  { latest_ppi_score := some 15, monthly_income := some 2000, assets := [],
    head_gender := "female", head_age := 60, disabled_members_count := 1,
    is_single_parent := false, total_members := 9, working_members_count := 3,
    location := "remote rural area",
    village := some { distance_to_market := some 25, is_program_area := some true },
    has_electricity := false, has_clean_water := false,
    children_under_5_count := 3, head_education_level := "none",
    consent_given := true, id := 3, name := "scenario" }

/-- An `eligible`-band household (total 67.5) in a program-area village that
has not given consent. -/
def hhNoConsent : Household :=
  { latest_ppi_score := some 50, monthly_income := some 4000, assets := [],
    head_gender := "male", head_age := 30, disabled_members_count := 0,
    is_single_parent := false, total_members := 1, working_members_count := 1,
    location := "", village := some { distance_to_market := none, is_program_area := some true },
    has_electricity := true, has_clean_water := true,
    children_under_5_count := 0, head_education_level := "secondary_complete",
    consent_given := false, id := 4, name := "noconsent" }

/-- A household scoring far below every eligibility threshold. -/
def hhWealthy : Household :=
  { latest_ppi_score := some 90, monthly_income := some 50000,
    assets := ["car", "motorcycle", "television", "refrigerator"],
    head_gender := "male", head_age := 30, disabled_members_count := 0,
    is_single_parent := false, total_members := 1, working_members_count := 1,
    location := "", village := none, has_electricity := true,
    has_clean_water := true, children_under_5_count := 0,
    head_education_level := "secondary_complete", consent_given := true,
    id := 5, name := "wealthy" }

/-! Helper lemmas. -/

lemma scorePovertyIndex_range (h : Household) :
    0 ≤ scorePovertyIndex h ∧ scorePovertyIndex h ≤ 100 := by
  unfold scorePovertyIndex
  rcases h.latest_ppi_score with _ | p <;> dsimp only
  · omega
  · split_ifs <;> omega

lemma scoreIncomeLevel_range (h : Household) :
    0 ≤ scoreIncomeLevel h ∧ scoreIncomeLevel h ≤ 100 := by
  unfold scoreIncomeLevel
  dsimp only
  split_ifs <;> omega

lemma scoreAssetOwnership_range (h : Household) :
    0 ≤ scoreAssetOwnership h ∧ scoreAssetOwnership h ≤ 100 := by
  unfold scoreAssetOwnership
  dsimp only
  split_ifs <;> omega

lemma scoreSocialFactors_range (h : Household) :
    0 ≤ scoreSocialFactors h ∧ scoreSocialFactors h ≤ 100 := by
  unfold scoreSocialFactors
  split_ifs <;> omega

lemma scoreGeographicFactors_range (h : Household) :
    0 ≤ scoreGeographicFactors h ∧ scoreGeographicFactors h ≤ 100 := by
  unfold scoreGeographicFactors
  rcases h.village with _ | v <;> dsimp only
  · split_ifs <;> omega
  · rcases v.distance_to_market with _ | d <;> dsimp only
    · split_ifs <;> omega
    · split_ifs <;> omega

lemma scoreDemographicFactors_range (h : Household) :
    0 ≤ scoreDemographicFactors h ∧ scoreDemographicFactors h ≤ 100 := by
  unfold scoreDemographicFactors
  split_ifs <;> omega

lemma weightOf_poverty : weightOf "poverty_index" = 0.30 := rfl
lemma weightOf_income : weightOf "income_level" = 0.25 := rfl
lemma weightOf_asset : weightOf "asset_ownership" = 0.15 := rfl
lemma weightOf_social : weightOf "social_factors" = 0.15 := rfl
lemma weightOf_geographic : weightOf "geographic" = 0.10 := rfl
lemma weightOf_demographic : weightOf "demographic" = 0.05 := rfl

lemma thresholdOf_highly : thresholdOf "highly_eligible" = 80 := rfl
lemma thresholdOf_eligible : thresholdOf "eligible" = 60 := rfl
lemma thresholdOf_marginally : thresholdOf "marginally_eligible" = 40 := rfl

/-- Closed form of the weighted sum. -/
lemma totalScoreRaw_eq (h : Household) : totalScoreRaw h =
    (scorePovertyIndex h : ℚ) * (3/10) + (scoreIncomeLevel h : ℚ) * (1/4) +
    (scoreAssetOwnership h : ℚ) * (3/20) + (scoreSocialFactors h : ℚ) * (3/20) +
    (scoreGeographicFactors h : ℚ) * (1/10) + (scoreDemographicFactors h : ℚ) * (1/20) := by
  simp [totalScoreRaw, scoresList, categoryScores, weightOf, SCORING_WEIGHTS, List.lookup]
  norm_num
  ring

/-- The weighted total times 100 is an integer: category scores are integers
and every weight is a multiple of 1/100. -/
lemma totalScoreRaw_mul_100 (h : Household) : totalScoreRaw h * 100 =
    ((30 * scorePovertyIndex h + 25 * scoreIncomeLevel h + 15 * scoreAssetOwnership h +
      15 * scoreSocialFactors h + 10 * scoreGeographicFactors h +
      5 * scoreDemographicFactors h : ℤ) : ℚ) := by
  rw [totalScoreRaw_eq]
  push_cast
  ring

/-- `round(x, 2)` is the identity whenever `x * 100` is an integer. -/
lemma round2_of_mul_100_int {q : ℚ} {n : ℤ} (hq : q * 100 = (n : ℚ)) :
    round2 q = q := by
  unfold round2
  rw [hq, round_intCast]
  rw [div_eq_iff (by norm_num : (100:ℚ) ≠ 0)]
  exact hq.symm

/-- Rounding the weighted total to two decimals never changes it. -/
lemma round2_totalScoreRaw (h : Household) :
    round2 (totalScoreRaw h) = totalScoreRaw h :=
  round2_of_mul_100_int (totalScoreRaw_mul_100 h)

lemma calc_total_eq (h : Household) :
    (calculate_comprehensive_score h).total_score = round2 (totalScoreRaw h) := rfl

lemma calc_level_eq (h : Household) :
    (calculate_comprehensive_score h).eligibility_level =
      eligibilityLevel (totalScoreRaw h) := rfl

lemma totalScoreRaw_range (h : Household) :
    0 ≤ totalScoreRaw h ∧ totalScoreRaw h ≤ 100 := by
  obtain ⟨p0, p1⟩ := scorePovertyIndex_range h
  obtain ⟨i0, i1⟩ := scoreIncomeLevel_range h
  obtain ⟨a0, a1⟩ := scoreAssetOwnership_range h
  obtain ⟨s0, s1⟩ := scoreSocialFactors_range h
  obtain ⟨g0, g1⟩ := scoreGeographicFactors_range h
  obtain ⟨d0, d1⟩ := scoreDemographicFactors_range h
  rw [totalScoreRaw_eq]
  have P0 : (0:ℚ) ≤ (scorePovertyIndex h : ℚ) := by exact_mod_cast p0
  have I0 : (0:ℚ) ≤ (scoreIncomeLevel h : ℚ) := by exact_mod_cast i0
  have A0 : (0:ℚ) ≤ (scoreAssetOwnership h : ℚ) := by exact_mod_cast a0
  have S0 : (0:ℚ) ≤ (scoreSocialFactors h : ℚ) := by exact_mod_cast s0
  have G0 : (0:ℚ) ≤ (scoreGeographicFactors h : ℚ) := by exact_mod_cast g0
  have D0 : (0:ℚ) ≤ (scoreDemographicFactors h : ℚ) := by exact_mod_cast d0
  have P1 : (scorePovertyIndex h : ℚ) ≤ 100 := by exact_mod_cast p1
  have I1 : (scoreIncomeLevel h : ℚ) ≤ 100 := by exact_mod_cast i1
  have A1 : (scoreAssetOwnership h : ℚ) ≤ 100 := by exact_mod_cast a1
  have S1 : (scoreSocialFactors h : ℚ) ≤ 100 := by exact_mod_cast s1
  have G1 : (scoreGeographicFactors h : ℚ) ≤ 100 := by exact_mod_cast g1
  have D1 : (scoreDemographicFactors h : ℚ) ≤ 100 := by exact_mod_cast d1
  constructor <;> linarith

/-! Evaluation lemmas on the concrete households. -/

lemma scenario_poverty : scorePovertyIndex hhScenario = 100 := by decide
lemma scenario_income : scoreIncomeLevel hhScenario = 100 := by
  norm_num [scoreIncomeLevel, hhScenario]
lemma scenario_asset : scoreAssetOwnership hhScenario = 100 := by decide
lemma scenario_social : scoreSocialFactors hhScenario = 95 := by
  norm_num [scoreSocialFactors, hhScenario]
lemma scenario_geographic : scoreGeographicFactors hhScenario = 100 := by
  norm_num [scoreGeographicFactors, hhScenario,
    show locationHasKeyword "remote rural area" = true from by decide]
lemma scenario_demographic : scoreDemographicFactors hhScenario = 100 := by decide

lemma scenario_totalRaw : totalScoreRaw hhScenario = 397/4 := by
  rw [totalScoreRaw_eq, scenario_poverty, scenario_income, scenario_asset,
    scenario_social, scenario_geographic, scenario_demographic]
  norm_num

lemma scenario_total : (calculate_comprehensive_score hhScenario).total_score = 397/4 := by
  rw [calc_total_eq, round2_totalScoreRaw, scenario_totalRaw]

lemma scenario_level :
    (calculate_comprehensive_score hhScenario).eligibility_level = "highly_eligible" := by
  rw [calc_level_eq, scenario_totalRaw, eligibilityLevel, thresholdOf_highly]
  norm_num

lemma noconsent_poverty : scorePovertyIndex hhNoConsent = 60 := by decide
lemma noconsent_income : scoreIncomeLevel hhNoConsent = 80 := by
  norm_num [scoreIncomeLevel, hhNoConsent]
lemma noconsent_asset : scoreAssetOwnership hhNoConsent = 100 := by decide
lemma noconsent_social : scoreSocialFactors hhNoConsent = 50 := by
  norm_num [scoreSocialFactors, hhNoConsent]
  decide
lemma noconsent_geographic : scoreGeographicFactors hhNoConsent = 50 := by
  norm_num [scoreGeographicFactors, hhNoConsent,
    show locationHasKeyword "" = false from by decide]
lemma noconsent_demographic : scoreDemographicFactors hhNoConsent = 40 := by decide

lemma noconsent_totalRaw : totalScoreRaw hhNoConsent = 135/2 := by
  rw [totalScoreRaw_eq, noconsent_poverty, noconsent_income, noconsent_asset,
    noconsent_social, noconsent_geographic, noconsent_demographic]
  norm_num

lemma noconsent_level :
    (calculate_comprehensive_score hhNoConsent).eligibility_level = "eligible" := by
  rw [calc_level_eq, noconsent_totalRaw, eligibilityLevel, thresholdOf_highly,
    thresholdOf_eligible]
  norm_num

lemma wealthy_poverty : scorePovertyIndex hhWealthy = 10 := by decide
lemma wealthy_income : scoreIncomeLevel hhWealthy = 20 := by
  norm_num [scoreIncomeLevel, hhWealthy]
lemma wealthy_asset : scoreAssetOwnership hhWealthy = 10 := by decide
lemma wealthy_social : scoreSocialFactors hhWealthy = 50 := by
  norm_num [scoreSocialFactors, hhWealthy]
  decide
lemma wealthy_geographic : scoreGeographicFactors hhWealthy = 50 := by
  norm_num [scoreGeographicFactors, hhWealthy,
    show locationHasKeyword "" = false from by decide]
lemma wealthy_demographic : scoreDemographicFactors hhWealthy = 40 := by decide

lemma wealthy_totalRaw : totalScoreRaw hhWealthy = 24 := by
  rw [totalScoreRaw_eq, wealthy_poverty, wealthy_income, wealthy_asset,
    wealthy_social, wealthy_geographic, wealthy_demographic]
  norm_num

lemma wealthy_level :
    (calculate_comprehensive_score hhWealthy).eligibility_level = "not_eligible" := by
  rw [calc_level_eq, wealthy_totalRaw, eligibilityLevel, thresholdOf_highly,
    thresholdOf_eligible, thresholdOf_marginally]
  norm_num

/-! Claim theorems. -/

/-- C1: for every household, each of the six category scoring functions
returns a value in [0,100], and the total score returned by
`calculate_comprehensive_score` is in [0,100]. -/
theorem C1_category_and_total_score_in_range (h : Household) :
    (0 ≤ scorePovertyIndex h ∧ scorePovertyIndex h ≤ 100) ∧
    (0 ≤ scoreIncomeLevel h ∧ scoreIncomeLevel h ≤ 100) ∧
    (0 ≤ scoreAssetOwnership h ∧ scoreAssetOwnership h ≤ 100) ∧
    (0 ≤ scoreSocialFactors h ∧ scoreSocialFactors h ≤ 100) ∧
    (0 ≤ scoreGeographicFactors h ∧ scoreGeographicFactors h ≤ 100) ∧
    (0 ≤ scoreDemographicFactors h ∧ scoreDemographicFactors h ≤ 100) ∧
    (0 ≤ (calculate_comprehensive_score h).total_score ∧
      (calculate_comprehensive_score h).total_score ≤ 100) := by
  refine ⟨scorePovertyIndex_range h, scoreIncomeLevel_range h,
    scoreAssetOwnership_range h, scoreSocialFactors_range h,
    scoreGeographicFactors_range h, scoreDemographicFactors_range h, ?_⟩
  rw [calc_total_eq, round2_totalScoreRaw]
  exact totalScoreRaw_range h

/-- C2: the six weights are the fixed constants 0.30/0.25/0.15/0.15/0.10/0.05,
they sum to exactly 1, and the returned total score is the weighted sum of
the six category scores rounded to two decimal places. -/
theorem C2_total_is_weighted_sum_of_fixed_weights (h : Household) :
    weightOf "poverty_index" = 0.30 ∧ weightOf "income_level" = 0.25 ∧
    weightOf "asset_ownership" = 0.15 ∧ weightOf "social_factors" = 0.15 ∧
    weightOf "geographic" = 0.10 ∧ weightOf "demographic" = 0.05 ∧
    (SCORING_WEIGHTS.map Prod.snd).sum = 1 ∧
    (calculate_comprehensive_score h).total_score =
      round2 ((scorePovertyIndex h : ℚ) * 0.30 + (scoreIncomeLevel h : ℚ) * 0.25 +
        (scoreAssetOwnership h : ℚ) * 0.15 + (scoreSocialFactors h : ℚ) * 0.15 +
        (scoreGeographicFactors h : ℚ) * 0.10 + (scoreDemographicFactors h : ℚ) * 0.05) := by
  refine ⟨rfl, rfl, rfl, rfl, rfl, rfl, by norm_num [SCORING_WEIGHTS], ?_⟩
  rw [calc_total_eq, totalScoreRaw_eq]
  congr 1
  norm_num

/-- C3: the eligibility level is derived from the returned total score by the
first-match-wins threshold cascade 80/60/40, with the stated values at and
just below each boundary. -/
theorem C3_eligibility_banding :
    (∀ h : Household, (calculate_comprehensive_score h).eligibility_level =
      eligibilityLevel (calculate_comprehensive_score h).total_score) ∧
    eligibilityLevel 80 = "highly_eligible" ∧ eligibilityLevel 79.99 = "eligible" ∧
    eligibilityLevel 60 = "eligible" ∧ eligibilityLevel 59.99 = "marginally_eligible" ∧
    eligibilityLevel 40 = "marginally_eligible" ∧ eligibilityLevel 39.99 = "not_eligible" := by
  refine ⟨?_, ?_, ?_, ?_, ?_, ?_, ?_⟩
  · intro h
    rw [calc_level_eq, calc_total_eq, round2_totalScoreRaw]
  all_goals
    rw [eligibilityLevel, thresholdOf_highly, thresholdOf_eligible, thresholdOf_marginally]
  all_goals norm_num

/-- C4 (amended): when `latest_ppi_score` is present and nonzero the poverty
category score follows the bands ≤20→100, ≤40→80, ≤60→60, ≤80→30, else 10;
when it is absent, or present but equal to 0 (Python truthiness treats 0 like
`None`), the score is the default 50. -/
theorem C4_poverty_banding_amended (h : Household) :
    (∀ p : ℤ, h.latest_ppi_score = some p → p ≠ 0 →
      scorePovertyIndex h =
        if p ≤ 20 then 100 else if p ≤ 40 then 80 else if p ≤ 60 then 60
        else if p ≤ 80 then 30 else 10) ∧
    ((h.latest_ppi_score = none ∨ h.latest_ppi_score = some 0) →
      scorePovertyIndex h = 50) := by
  constructor
  · intro p hp hp0
    unfold scorePovertyIndex
    rw [hp]
    simp [hp0]
  · rintro (hn | h0)
    · simp [scorePovertyIndex, hn]
    · simp [scorePovertyIndex, h0]

/-- C4 counterexample: a household whose recorded PPI score is 0 — present
and ≤ 20, so the claim demands 100 — actually scores the absent-case default
50. -/
theorem C4_poverty_banding_counterexample :
    hhPpi0.latest_ppi_score = some 0 ∧ (0:ℤ) ≤ 20 ∧
    scorePovertyIndex hhPpi0 = 50 ∧ scorePovertyIndex hhPpi0 ≠ 100 := by
  decide

theorem C4_poverty_banding_witness :
    scorePovertyIndex hhPpi15 = 100 ∧ scorePovertyIndex hhPpi0 = 50 := by
  constructor
  · have h1 := (C4_poverty_banding_amended hhPpi15).1 15 rfl (by decide)
    simpa using h1
  · exact (C4_poverty_banding_amended hhPpi0).2 (Or.inr rfl)

/-- C5 counterexample: in the concrete scenario the social-factors category
scores 95 (a head aged 60 earns the +5 bonus, not +10, which requires
age ≥ 65), so not every category scores 100 and the total is not 100. -/
theorem C5_concrete_scenario_counterexample :
    hhScenario.head_age = 60 ∧ scoreSocialFactors hhScenario = 95 ∧
    (95:ℤ) ≠ 100 ∧
    (calculate_comprehensive_score hhScenario).total_score ≠ 100 := by
  refine ⟨rfl, scenario_social, by decide, ?_⟩
  rw [scenario_total]
  norm_num

/-- C5 (amended): in the concrete scenario the poverty, income, asset,
geographic and demographic categories each score 100, the social category
scores 95 (50+15+5+15+10, the age-60 bonus being +5), the total score is
99.25, and the household is `highly_eligible`. -/
theorem C5_concrete_scenario_amended :
    scorePovertyIndex hhScenario = 100 ∧ scoreIncomeLevel hhScenario = 100 ∧
    scoreAssetOwnership hhScenario = 100 ∧ scoreSocialFactors hhScenario = 95 ∧
    scoreGeographicFactors hhScenario = 100 ∧ scoreDemographicFactors hhScenario = 100 ∧
    (calculate_comprehensive_score hhScenario).total_score = 99.25 ∧
    (calculate_comprehensive_score hhScenario).eligibility_level = "highly_eligible" := by
  refine ⟨scenario_poverty, scenario_income, scenario_asset, scenario_social,
    scenario_geographic, scenario_demographic, ?_, scenario_level⟩
  rw [scenario_total]
  norm_num

/-- C9: `calculate_comprehensive_score` is deterministic — a second call on
the scorer state left by the first call returns the same result dict, which
depends only on the household. -/
theorem C9_calculate_deterministic (h : Household) :
    (calcStep (calcStep (initScorer h)).1).2 = (calcStep (initScorer h)).2 ∧
    (calcStep (initScorer h)).2 = calculate_comprehensive_score h :=
  ⟨rfl, rfl⟩

/-- C10: a household with no `monthly_income` (absent attribute or `None`)
scores 100 in the income category — the maximum, the same score as a
zero-income household — not a neutral mid-range default. -/
theorem C10_missing_income_max_score (h : Household)
    (hn : h.monthly_income = none) :
    scoreIncomeLevel h = 100 ∧
    (∀ h2 : Household, scoreIncomeLevel h2 ≤ 100) ∧
    (∀ h0 : Household, h0.monthly_income = some 0 →
      scoreIncomeLevel h0 = scoreIncomeLevel h) := by
  have base : scoreIncomeLevel h = 100 := by
    norm_num [scoreIncomeLevel, hn]
  refine ⟨base, fun h2 => (scoreIncomeLevel_range h2).2, ?_⟩
  intro h0 h00
  rw [base]
  norm_num [scoreIncomeLevel, h00]

theorem C10_missing_income_witness :
    hhBase.monthly_income = none ∧ scoreIncomeLevel hhBase = 100 :=
  ⟨rfl, (C10_missing_income_max_score hhBase rfl).1⟩

/-- C6: the final qualification is `qualified` exactly when the household is
in an eligible band and all four checks pass; an eligible household with a
failing check gets `needs_review` with the failing check names as blocking
factors (in check order); a household below `eligible` gets `not_qualified`. -/
theorem C6_final_qualification_rule (h : Household) :
    ((run_qualification_assessment h).final_qualification.qualified = true ↔
      (((calculate_comprehensive_score h).eligibility_level = "highly_eligible" ∨
        (calculate_comprehensive_score h).eligibility_level = "eligible") ∧
       check_geographic_eligibility h = true ∧ check_program_capacity h = true ∧
       check_previous_participation h = true ∧ check_consent_commitment h = true)) ∧
    ((((calculate_comprehensive_score h).eligibility_level = "highly_eligible" ∨
       (calculate_comprehensive_score h).eligibility_level = "eligible") ∧
      ¬(check_geographic_eligibility h = true ∧ check_program_capacity h = true ∧
        check_previous_participation h = true ∧ check_consent_commitment h = true)) →
      ((run_qualification_assessment h).final_qualification.status = "needs_review" ∧
       (run_qualification_assessment h).final_qualification.qualified = false ∧
       (run_qualification_assessment h).final_qualification.blocking_factors =
         some ((if check_geographic_eligibility h then [] else ["geographic_eligibility"]) ++
               (if check_program_capacity h then [] else ["program_capacity"]) ++
               (if check_previous_participation h then [] else ["previous_participation"]) ++
               (if check_consent_commitment h then [] else ["consent_and_commitment"])))) ∧
    ((¬((calculate_comprehensive_score h).eligibility_level = "highly_eligible" ∨
        (calculate_comprehensive_score h).eligibility_level = "eligible")) →
      ((run_qualification_assessment h).final_qualification.status = "not_qualified" ∧
       (run_qualification_assessment h).final_qualification.qualified = false)) := by
  by_cases hlev : ((calculate_comprehensive_score h).eligibility_level = "highly_eligible" ∨
      (calculate_comprehensive_score h).eligibility_level = "eligible")
  · rcases hlev with h1 | h1 <;> rcases hg : check_geographic_eligibility h <;>
      rcases hc : check_consent_commitment h <;>
      simp [run_qualification_assessment, make_final_decision, qualificationChecks,
        checksList, check_program_capacity, check_previous_participation, h1, hg, hc]
  · have h1 : (calculate_comprehensive_score h).eligibility_level ≠ "highly_eligible" :=
      fun hcon => hlev (Or.inl hcon)
    have h2 : (calculate_comprehensive_score h).eligibility_level ≠ "eligible" :=
      fun hcon => hlev (Or.inr hcon)
    rcases hg : check_geographic_eligibility h <;> rcases hc : check_consent_commitment h <;>
      simp [run_qualification_assessment, make_final_decision, qualificationChecks,
        checksList, check_program_capacity, check_previous_participation, h1, h2, hg, hc]

theorem C6_final_qualification_witness :
    ((run_qualification_assessment hhNoConsent).final_qualification.status = "needs_review" ∧
     (run_qualification_assessment hhNoConsent).final_qualification.qualified = false ∧
     (run_qualification_assessment hhNoConsent).final_qualification.blocking_factors =
       some ["consent_and_commitment"]) ∧
    ((run_qualification_assessment hhWealthy).final_qualification.status = "not_qualified" ∧
     (run_qualification_assessment hhWealthy).final_qualification.qualified = false) := by
  constructor
  · have res := (C6_final_qualification_rule hhNoConsent).2.1
      ⟨Or.inr noconsent_level, fun hcon => absurd hcon.2.2.2 (by decide)⟩
    refine ⟨res.1, res.2.1, ?_⟩
    rw [res.2.2]
    decide
  · exact (C6_final_qualification_rule hhWealthy).2.2
      (by rw [wealthy_level]; decide)

/-- C7: `is_eligible_for_program` is true for `graduation` exactly on the two
top bands, true for `general` exactly off the bottom band, and false (not an
error) on every other program type. -/
theorem C7_program_type_eligibility (h : Household) (program_type : String) :
    (is_eligible_for_program h "graduation" = true ↔
      ((calculate_comprehensive_score h).eligibility_level = "highly_eligible" ∨
       (calculate_comprehensive_score h).eligibility_level = "eligible")) ∧
    (is_eligible_for_program h "general" = true ↔
      (calculate_comprehensive_score h).eligibility_level ≠ "not_eligible") ∧
    (program_type ≠ "graduation" → program_type ≠ "general" →
      is_eligible_for_program h program_type = false) := by
  refine ⟨?_, ?_, ?_⟩
  · simp [is_eligible_for_program]
  · simp [is_eligible_for_program]
  · intro h1 h2
    simp [is_eligible_for_program, h1, h2]

theorem C7_program_type_witness :
    is_eligible_for_program hhBase "unknown_program" = false ∧
    is_eligible_for_program hhScenario "graduation" = true := by
  constructor
  · exact (C7_program_type_eligibility hhBase "unknown_program").2.2
      (by decide) (by decide)
  · exact ((C7_program_type_eligibility hhScenario "graduation").1).mpr
      (Or.inl scenario_level)

lemma batchLE_trans : ∀ a b c : BatchEntry, batchLE a b → batchLE b c → batchLE a c := by
  intro a b c hab hbc
  simp only [batchLE, decide_eq_true_eq] at *
  exact le_trans hbc hab

lemma batchLE_total : ∀ a b : BatchEntry, batchLE a b || batchLE b a := by
  intro a b
  simpa [batchLE] using le_total b.total_score a.total_score

/-- C8: the batch assessment returns one entry per input household, sorted by
total score descending, and entries with equal total scores appear in input
order (the filter at any given score value is unchanged). -/
theorem C8_batch_sorted_descending_stable (hs : List Household) :
    (batch_eligibility_assessment hs).length = hs.length ∧
    (batch_eligibility_assessment hs).Perm (hs.map batchEntry) ∧
    List.Pairwise (fun a b => b.total_score ≤ a.total_score)
      (batch_eligibility_assessment hs) ∧
    (∀ s : ℚ, (batch_eligibility_assessment hs).filter (fun e => e.total_score = s) =
      (hs.map batchEntry).filter (fun e => e.total_score = s)) := by
  refine ⟨?_, ?_, ?_, ?_⟩
  · simp [batch_eligibility_assessment]
  · exact List.mergeSort_perm _ _
  · have hp := List.sorted_mergeSort batchLE_trans batchLE_total (hs.map batchEntry)
    exact hp.imp (by intro a b hab; simpa [batchLE] using hab)
  · intro s
    have hpair : ((hs.map batchEntry).filter (fun e => decide (e.total_score = s))).Pairwise
        (fun a b => batchLE a b = true) := by
      apply List.pairwise_of_forall_mem_list
      intro a ha b hb
      have ha' := List.of_mem_filter ha
      have hb' := List.of_mem_filter hb
      simp only [decide_eq_true_eq] at ha' hb'
      simp [batchLE, ha', hb']
    have hsub : List.Sublist
        ((hs.map batchEntry).filter (fun e => decide (e.total_score = s)))
        (batch_eligibility_assessment hs) :=
      List.sublist_mergeSort batchLE_trans batchLE_total hpair
        (List.filter_sublist (hs.map batchEntry))
    have hff : (fun (a : BatchEntry) => decide (a.total_score = s) && decide (a.total_score = s)) =
        (fun a => decide (a.total_score = s)) := by
      funext a
      cases hd : decide (a.total_score = s) <;> simp
    have hsub2 : List.Sublist
        ((hs.map batchEntry).filter (fun e => decide (e.total_score = s)))
        ((batch_eligibility_assessment hs).filter (fun e => decide (e.total_score = s))) := by
      have h2 := hsub.filter (fun e => decide (e.total_score = s))
      rwa [List.filter_filter, hff] at h2
    have hperm : ((batch_eligibility_assessment hs).filter
        (fun e => decide (e.total_score = s))).Perm
        ((hs.map batchEntry).filter (fun e => decide (e.total_score = s))) :=
      (List.mergeSort_perm (hs.map batchEntry) batchLE).filter _
    exact (hsub2.eq_of_length hperm.length_eq.symm).symm

end UPG
